import Mathlib

/-!
Shallow embedding of the variadic coordinate/print argument convention of the
goncurses window API: `Window.AddChar`, `Window.GetChar` and `Window.Print`
(src/unnamed/part_000, lines 561-579, 722-736 and 818-842), together with the
positional-argument resolver view of that convention described in the
specification.
-/

namespace Goncurses

/-- A Go `interface{}` value as passed to `Window.Print`: the call sites and
the specification exercise exactly `int` and `string` values.  The reflection
test `reflect.TypeOf(args[i]).String() == "int"` holds exactly for the `i`
constructor. -/
inductive PV where
  | i (n : Int)
  | s (str : String)
deriving DecidableEq

/-- Result of `reflect.TypeOf(v).String() == "int"` for a value `v`. -/
def pvIsInt : PV → Bool
  | .i _ => true
  | .s _ => false

/-- The `int` carried by a `PV`; only read under a `pvIsInt` guard (Go's
`args[k].(int)` succeeds exactly when the value is an `int`). -/
def pvInt : PV → Int
  | .i n => n
  | .s _ => 0

/-- Rendering of a value under the `%s` verb of Go's `fmt.Sprintf`: a string
renders as itself, any other value as a `%!s(...)` error marker. -/
def pvVerbS : PV → String
  | .s str => str
  | .i n => "%!s(int=" ++ toString n ++ ")"

/-- Rendering of a value under the `%d` verb of Go's `fmt.Sprintf`. -/
def pvVerbD : PV → String
  | .i n => toString n
  | .s str => "%!d(string=" ++ str ++ ")"

/-- Rendering of a leftover argument in Go's `%!(EXTRA ...)` marker. -/
def pvExtra : PV → String
  | .s str => "string=" ++ str
  | .i n => "int=" ++ toString n

/-- Marker Go's `fmt.Sprintf` appends when arguments remain after the format
string is exhausted. -/
def extraSuffix (vs : List PV) : String :=
  match vs with
  | [] => ""
  | _ => "%!(EXTRA " ++ String.intercalate ", " (vs.map pvExtra) ++ ")"

/-- Model of Go's `fmt.Sprintf` restricted to the forms exercised by this
repository and its specification: the `%s` and `%d` verbs, the `%%` escape,
missing-argument and extra-argument markers, and literal characters.  Format
runes after a `%` other than `s`, `d` and `%` are copied verbatim. -/
def sprintfAux : List Char → List PV → String
  | [], vs => extraSuffix vs
  | '%' :: '%' :: rest, vs => "%" ++ sprintfAux rest vs
  | '%' :: 's' :: rest, v :: vs => pvVerbS v ++ sprintfAux rest vs
  | '%' :: 's' :: rest, [] => "%!s(MISSING)" ++ sprintfAux rest []
  | '%' :: 'd' :: rest, v :: vs => pvVerbD v ++ sprintfAux rest vs
  | '%' :: 'd' :: rest, [] => "%!d(MISSING)" ++ sprintfAux rest []
  | ['%'], vs => "%!(NOVERB)" ++ extraSuffix vs
  | c :: rest, vs => String.singleton c ++ sprintfAux rest vs

/-- Model of `fmt.Sprintf(f, vs...)` on the fragment above. -/
def sprintf (f : String) (vs : List PV) : String :=
  sprintfAux f.toList vs

/-- Outcome of `Window.AddChar(args ...int)`: `plain ch` is the driver call
`waddch(w, ch)`, `moveCall y x ch` is the move-then-act driver call
`mvwaddch(w, y, x, ch)`, and `panicked` is a Go runtime panic (index out of
range), which aborts before any driver call. -/
inductive AddCharResult where
  | plain (ch : Int)
  | moveCall (y x ch : Int)
  | panicked
deriving DecidableEq

/-- The `count` computed by `Window.AddChar`: `count += 1` under
`len(args) > 1`, and again under `len(args) > 2`. -/
def addCharCount (args : List Int) : Nat :=
  (if 1 < args.length then 1 else 0) + (if 2 < args.length then 1 else 0)

/-- The `y` variable of `Window.AddChar`: zero-initialized, set to `args[0]`
when `len(args) > 1`. -/
def addCharY (args : List Int) : Int :=
  if 1 < args.length then args.getD 0 0 else 0

/-- The `x` variable of `Window.AddChar`: zero-initialized, set to `args[1]`
when `len(args) > 2`. -/
def addCharX (args : List Int) : Int :=
  if 2 < args.length then args.getD 1 0 else 0

/-- Model of `Window.AddChar` (src/unnamed/part_000 lines 561-579): after
computing `y`, `x` and `count`, it reads `args[count]` as the character
(a panic when out of range, which only happens for an empty list) and issues
`mvwaddch` when `count > 0`, else `waddch`. -/
def addCharModel (args : List Int) : AddCharResult :=
  match args.get? (addCharCount args) with
  | none => .panicked
  | some ch =>
      if 0 < addCharCount args then
        .moveCall (addCharY args) (addCharX args) ch
      else
        .plain ch

/-- Outcome of `Window.GetChar(coords ...int)`: `plainRead` is the driver call
`wgetch(w)` (read at the current cursor), `moveRead y x` is
`mvwgetch(w, y, x)`. -/
inductive GetResult where
  | plainRead
  | moveRead (y x : Int)
deriving DecidableEq

/-- The `count` computed by `Window.GetChar`: `count++` under
`len(coords) > 1`, and again under `len(coords) > 2`. -/
def getCharCount (coords : List Int) : Nat :=
  (if 1 < coords.length then 1 else 0) + (if 2 < coords.length then 1 else 0)

/-- The `y` variable of `Window.GetChar`: zero-initialized, set to `coords[0]`
when `len(coords) > 1`. -/
def getCharY (coords : List Int) : Int :=
  if 1 < coords.length then coords.getD 0 0 else 0

/-- The `x` variable of `Window.GetChar`: zero-initialized, set to `coords[1]`
when `len(coords) > 2`. -/
def getCharX (coords : List Int) : Int :=
  if 2 < coords.length then coords.getD 1 0 else 0

/-- Model of `Window.GetChar` (src/unnamed/part_000 lines 722-736): issues
`mvwgetch(w, y, x)` when `count > 0`, else `wgetch(w)`. -/
def getCharModel (coords : List Int) : GetResult :=
  if 0 < getCharCount coords then
    .moveRead (getCharY coords) (getCharX coords)
  else
    .plainRead

/-- Outcome of `Window.Print` on its untyped variadic arguments:
`plainCall text` is the driver call `waddstr(w, text)`, `moveCall y x text` is
`mvwaddstr(w, y, x, text)`, and `panicked` is a Go runtime panic — either the
failed type assertion `args[count].(string)` when that element is not a
string, or an index-out-of-range on `args[count]` — which aborts the call
before any driver call.  `Window.Print` has no return value, so no error value
can be signaled to the caller. -/
inductive PrintResult where
  | plainCall (text : String)
  | moveCall (y x : Int) (text : String)
  | panicked
deriving DecidableEq

/-- The `count` computed by `Window.Print`: `count += 1` under
`len(args) > 1` and `args[0]` being an `int`, and again under
`len(args) > 2` and `args[1]` being an `int`. -/
def printCount (args : List PV) : Nat :=
  (if decide (1 < args.length) && pvIsInt (args.getD 0 (.s "")) then 1 else 0)
    + (if decide (2 < args.length) && pvIsInt (args.getD 1 (.s "")) then 1 else 0)

/-- The `y` variable of `Window.Print`: zero-initialized, set to
`args[0].(int)` when `len(args) > 1` and `args[0]` is an `int`. -/
def printY (args : List PV) : Int :=
  if decide (1 < args.length) && pvIsInt (args.getD 0 (.s "")) then
    pvInt (args.getD 0 (.s ""))
  else 0

/-- The `x` variable of `Window.Print`: zero-initialized, set to
`args[1].(int)` when `len(args) > 2` and `args[1]` is an `int`. -/
def printX (args : List PV) : Int :=
  if decide (2 < args.length) && pvIsInt (args.getD 1 (.s "")) then
    pvInt (args.getD 1 (.s ""))
  else 0

/-- Model of `Window.Print` (src/unnamed/part_000 lines 818-842): after
computing `y`, `x` and `count`, it renders
`fmt.Sprintf(args[count].(string), args[count+1:]...)` — a panic when
`args[count]` is out of range or not a string — and issues `mvwaddstr` when
`count > 0`, else `waddstr`. -/
def printModel (args : List PV) : PrintResult :=
  match args.get? (printCount args) with
  | some (.s f) =>
      let text := sprintf f (args.drop (printCount args + 1))
      if 0 < printCount args then
        .moveCall (printY args) (printX args) text
      else
        .plainCall text
  | some (.i _) => .panicked
  | none => .panicked

/-- The specification's Resolved Call record (§3): which leading elements were
taken as coordinates, their values, and the remaining elements. -/
structure ResolvedCall (α : Type) where
  hasY : Bool
  y : Int
  hasX : Bool
  x : Int
  rest : List α
deriving DecidableEq

/-- The resolver view of `Window.AddChar`'s coordinate extraction: `hasY`
and `hasX` record which length guards fired, `rest` is `args[count:]`. -/
def resolveAddChar (args : List Int) : ResolvedCall Int :=
  ⟨decide (1 < args.length), addCharY args,
   decide (2 < args.length), addCharX args,
   args.drop (addCharCount args)⟩

/-- The resolver view of `Window.GetChar`'s coordinate extraction. -/
def resolveGetChar (coords : List Int) : ResolvedCall Int :=
  ⟨decide (1 < coords.length), getCharY coords,
   decide (2 < coords.length), getCharX coords,
   coords.drop (getCharCount coords)⟩

/-- The resolver view of `Window.Print`'s coordinate extraction: a leading
element is taken only when the length guard fires and the element is an
`int`; `rest` is `args[count:]`. -/
def resolvePrint (args : List PV) : ResolvedCall PV :=
  ⟨decide (1 < args.length) && pvIsInt (args.getD 0 (.s "")), printY args,
   decide (2 < args.length) && pvIsInt (args.getD 1 (.s "")), printX args,
   args.drop (printCount args)⟩

/-- Dispatch of a resolved print call: the head of `rest` must be the format
string (else the Go type assertion panics); the rendered text goes through
the move-then-act driver call when a coordinate was taken, else through the
plain driver call. -/
def printDispatch (r : ResolvedCall PV) : PrintResult :=
  match r.rest with
  | .s f :: vs =>
      if r.hasY || r.hasX then .moveCall r.y r.x (sprintf f vs)
      else .plainCall (sprintf f vs)
  | _ => .panicked

/-! Helper lemmas shared by the claim theorems. -/

/-- Dropping fewer elements than the length leaves a non-empty list. -/
lemma drop_ne_nil {α : Type} (l : List α) (n : Nat) (h : n < l.length) :
    l.drop n ≠ [] := by
  intro hnil
  have hl : (l.drop n).length = l.length - n := List.length_drop n l
  rw [hnil] at hl
  simp at hl
  omega

/-- The payload index of `Window.AddChar` stays within the argument list. -/
lemma addCharCount_le (args : List Int) (h : args ≠ []) :
    addCharCount args ≤ args.length - 1 := by
  have hpos : 0 < args.length := List.length_pos.mpr h
  unfold addCharCount
  split <;> split <;> omega

/-- The `count` of `Window.GetChar` stays below the argument-list length. -/
lemma getCharCount_le (coords : List Int) (h : coords ≠ []) :
    getCharCount coords ≤ coords.length - 1 := by
  have hpos : 0 < coords.length := List.length_pos.mpr h
  unfold getCharCount
  split <;> split <;> omega

/-- The payload index of `Window.Print` stays within the argument list. -/
lemma printCount_le (args : List PV) (h : args ≠ []) :
    printCount args ≤ args.length - 1 := by
  have hpos : 0 < args.length := List.length_pos.mpr h
  unfold printCount
  split <;> split <;>
    simp_all only [Bool.and_eq_true, decide_eq_true_eq] <;> omega

/-- The full `Window.Print` computation factors through the resolver: the
outcome is determined by the resolved call alone. -/
lemma print_factors (args : List PV) :
    printModel args = printDispatch (resolvePrint args) := by
  match args with
  | [] => rfl
  | [a] => cases a <;> rfl
  | [a, b] => cases a <;> cases b <;> rfl
  | a :: b :: c :: t =>
      have h1 : (1 : Nat) < t.length + 3 := by omega
      have h2 : (2 : Nat) < t.length + 3 := by omega
      cases a <;> cases b <;> cases c <;>
        simp [printModel, printDispatch, resolvePrint, printCount, printY,
          printX, pvIsInt, pvInt, List.getD, h1, h2]

/-! Claim theorems. -/

/-- C1: with exactly one leading element before the payload the resolver takes
it as `y` and `x` defaults to 0, and with two leading elements it takes them
as `y` and `x`; the wrappers then issue the move-then-act driver call:
`AddChar(y, ch)` acts at `(y, 0)`, `AddChar(y, x, ch)` acts at `(y, x)`, and
`Print(y, fmt, ...)` prints at `(y, 0)`. -/
theorem addChar_print_leading_coords :
    (∀ y ch : Int, addCharModel [y, ch] = .moveCall y 0 ch) ∧
    (∀ y x ch : Int, addCharModel [y, x, ch] = .moveCall y x ch) ∧
    (∀ (y : Int) (v : PV), resolvePrint [.i y, v] = ⟨true, y, false, 0, [v]⟩) ∧
    (∀ (y x : Int) (v : PV) (vs : List PV),
      resolvePrint (.i y :: .i x :: v :: vs) = ⟨true, y, true, x, v :: vs⟩) ∧
    (∀ (y : Int) (f : String) (vs : List PV),
      printModel (.i y :: .s f :: vs) = .moveCall y 0 (sprintf f vs)) := by
  refine ⟨fun y ch => rfl, fun y x ch => rfl, fun y v => rfl, ?_, ?_⟩
  · intro y x v vs
    have h1 : (1 : Nat) < vs.length + 3 := by omega
    have h2 : (2 : Nat) < vs.length + 3 := by omega
    simp [resolvePrint, printCount, printY, printX, pvIsInt, pvInt,
      List.getD, h1, h2]
  · intro y f vs
    match vs with
    | [] => rfl
    | v :: vs =>
        have h1 : (1 : Nat) < vs.length + 3 := by omega
        have h2 : (2 : Nat) < vs.length + 3 := by omega
        simp [printModel, printCount, printY, printX, pvIsInt, pvInt,
          List.getD, h1, h2]

/-- C2: an argument list of length 1 resolves to no coordinates with
`rest = [payload]`, and the plain driver call is issued: `AddChar(ch)` adds
at the current cursor, `Print("hello!")` renders `"hello!"` with no move. -/
theorem payload_only_resolution :
    (∀ v : PV, resolvePrint [v] = ⟨false, 0, false, 0, [v]⟩) ∧
    (∀ ch : Int, resolveAddChar [ch] = ⟨false, 0, false, 0, [ch]⟩) ∧
    (∀ ch : Int, addCharModel [ch] = .plain ch) ∧
    printModel [.s "hello!"] = .plainCall "hello!" :=
  ⟨fun v => rfl, fun ch => rfl, fun ch => rfl, by decide⟩

/-- C3: after the coordinates are stripped the next element is the format
template and the remaining elements are substituted into it positionally;
`Print(y, x, "fmt %s", "world")` prints `"fmt world"` at `(y, x)`. -/
theorem print_format_rendering :
    (∀ (y x : Int) (f : String) (vs : List PV),
      printModel (.i y :: .i x :: .s f :: vs) = .moveCall y x (sprintf f vs)) ∧
    (∀ y x : Int,
      printModel [.i y, .i x, .s "fmt %s", .s "world"] =
        .moveCall y x "fmt world") := by
  have base : ∀ (y x : Int) (f : String) (vs : List PV),
      printModel (.i y :: .i x :: .s f :: vs) = .moveCall y x (sprintf f vs) := by
    intro y x f vs
    have h1 : (1 : Nat) < vs.length + 3 := by omega
    have h2 : (2 : Nat) < vs.length + 3 := by omega
    simp [printModel, printCount, printY, printX, pvIsInt, pvInt,
      List.getD, h1, h2]
  refine ⟨base, fun y x => ?_⟩
  rw [base y x "fmt %s" [.s "world"]]
  have hfmt : sprintf "fmt %s" [PV.s "world"] = "fmt world" := by decide
  rw [hfmt]

/-- C4 counterexample: a five-element `AddChar` argument list does not abort
with `InvalidArguments`; the move-then-act driver call `mvwaddch(w, 1, 2, 3)`
is issued, the trailing elements silently ignored. -/
theorem extra_args_counterexample :
    addCharModel [1, 2, 3, 4, 5] = AddCharResult.moveCall 1 2 3 := by decide

/-- C4 amended: with more than two leading elements no `InvalidArguments`
condition exists — `AddChar` takes the first two elements as `y` and `x`,
the third as the character, ignores everything after it, and issues the
move-then-act driver call; `Print` with three or more leading `int` elements
panics on the failed string type assertion at `args[2]`, aborting before any
driver call but without signaling any error value. -/
theorem extra_args_behavior :
    (∀ (y x ch : Int) (r : List Int),
      addCharModel (y :: x :: ch :: r) = .moveCall y x ch) ∧
    (∀ (a b c : Int) (r : List PV),
      printModel (.i a :: .i b :: .i c :: r) = .panicked) := by
  constructor
  · intro y x ch r
    have h1 : (1 : Nat) < r.length + 3 := by omega
    have h2 : (2 : Nat) < r.length + 3 := by omega
    simp [addCharModel, addCharCount, addCharY, addCharX, List.getD, h1, h2]
  · intro a b c r
    have h1 : (1 : Nat) < r.length + 3 := by omega
    have h2 : (2 : Nat) < r.length + 3 := by omega
    simp [printModel, printCount, printY, printX, pvIsInt, List.getD, h1, h2]

/-- C5 counterexample: `Print(1, 2, 3)` — coordinates stripped, the next
element `3` is not a string — does not signal an `InvalidArguments` failure
to the caller: the call panics (Go runtime type-assertion crash), and
likewise `Print()` with the payload missing entirely panics on the index
`args[0]`; `Print` has no error return through which a failure could be
signaled. -/
theorem print_bad_payload_counterexample :
    printModel [PV.i 1, PV.i 2, PV.i 3] = PrintResult.panicked ∧
    printModel [] = PrintResult.panicked := by decide

/-- C5 amended: when the element at the payload index is missing or is not a
string, `Print` panics — the call is not forwarded to the terminal driver,
but the failure is a runtime crash, not a signaled `InvalidArguments` error
value (the function has no error return). -/
theorem print_bad_payload_panics (args : List PV)
    (h : args.get? (printCount args) = none ∨
      ∃ n, args.get? (printCount args) = some (.i n)) :
    printModel args = .panicked := by
  unfold printModel
  rcases h with h | ⟨n, h⟩ <;> rw [h]

/-- C5 witness: `Print("a", 2, 9)` has the non-string element `2` at its
payload index and panics. -/
theorem print_bad_payload_panics_witness :
    printModel [PV.s "a", PV.i 2, PV.i 9] = PrintResult.panicked :=
  print_bad_payload_panics _ (Or.inr ⟨2, rfl⟩)

/-- C6: the coordinate convention does NOT carry over to `GetChar` — the code
reuses the `len > 1` / `len > 2` thresholds of the payload-carrying functions
although `GetChar` has no payload, so `GetChar(5)` ignores the coordinate and
reads at the current cursor (`wgetch`), and `GetChar(5, 7)` moves to `(5, 0)`
(`mvwgetch(w, 5, 0)`), discarding the `x` coordinate; only a three-element
call reaches `(5, 7)`. -/
theorem getChar_coordinate_divergence :
    getCharModel [5] = GetResult.plainRead ∧
    getCharModel [5, 7] = GetResult.moveRead 5 0 ∧
    getCharModel [5, 7, 9] = GetResult.moveRead 5 7 := by decide

/-- C7: coordinate recognition in `Print` inspects both count and type:
`Print("hello %s!", "world")` takes no coordinates although the list has two
elements, and `Print(y, "fmt", v)` with an `int` first element and a string
second element takes exactly the one coordinate `y` although the list has
three elements. -/
theorem print_type_discrimination :
    printModel [.s "hello %s!", .s "world"] = .plainCall "hello world!" ∧
    resolvePrint [.s "hello %s!", .s "world"] =
      ⟨false, 0, false, 0, [.s "hello %s!", .s "world"]⟩ ∧
    (∀ (y : Int) (f : String) (v : PV),
      resolvePrint [.i y, .s f, v] = ⟨true, y, false, 0, [.s f, v]⟩) ∧
    (∀ (y : Int) (f : String) (v : PV),
      printModel [.i y, .s f, v] = .moveCall y 0 (sprintf f [v])) :=
  ⟨by decide, rfl, fun y f v => rfl, fun y f v => rfl⟩

/-- C8: for non-empty argument lists accepted by `AddChar`, `GetChar` and
`Print` (for `Print`: lists on which the call does not panic), the resolved
call satisfies `hasX = true → hasY = true` and `rest` is non-empty. -/
theorem resolved_call_invariants (argsA coords : List Int) (argsP : List PV)
    (hA : argsA ≠ []) (hG : coords ≠ []) (hP : argsP ≠ [])
    (hacc : printModel argsP ≠ .panicked) :
    ((resolveAddChar argsA).hasX = true → (resolveAddChar argsA).hasY = true) ∧
    (resolveAddChar argsA).rest ≠ [] ∧
    ((resolveGetChar coords).hasX = true → (resolveGetChar coords).hasY = true) ∧
    (resolveGetChar coords).rest ≠ [] ∧
    ((resolvePrint argsP).hasX = true → (resolvePrint argsP).hasY = true) ∧
    (resolvePrint argsP).rest ≠ [] := by
  refine ⟨?_, ?_, ?_, ?_, ?_, ?_⟩
  · simp only [resolveAddChar, decide_eq_true_eq]
    omega
  · have hc := addCharCount_le argsA hA
    have hpos : 0 < argsA.length := List.length_pos.mpr hA
    exact drop_ne_nil argsA (addCharCount argsA) (by omega)
  · simp only [resolveGetChar, decide_eq_true_eq]
    omega
  · have hc := getCharCount_le coords hG
    have hpos : 0 < coords.length := List.length_pos.mpr hG
    exact drop_ne_nil coords (getCharCount coords) (by omega)
  · match argsP with
    | [a] => intro hx; simp [resolvePrint] at hx
    | [a, b] => intro hx; simp [resolvePrint] at hx
    | a :: b :: c :: t =>
        have h1 : (1 : Nat) < t.length + 3 := by omega
        have h2 : (2 : Nat) < t.length + 3 := by omega
        intro hx
        cases a with
        | i n => simp [resolvePrint, printCount, pvIsInt, List.getD, h1, h2]
        | s str =>
            cases b with
            | i m =>
                exfalso
                apply hacc
                simp [printModel, printCount, pvIsInt, List.getD, h1, h2]
            | s str2 => simp [resolvePrint, printCount, pvIsInt, List.getD, h1, h2] at hx
  · have hc := printCount_le argsP hP
    have hpos : 0 < argsP.length := List.length_pos.mpr hP
    exact drop_ne_nil argsP (printCount argsP) (by omega)

/-- C8 witness: the invariants hold for `AddChar(1, 2, 3)`, `GetChar(1)`,
and `Print(1, "x")`. -/
theorem resolved_call_invariants_witness :
    ((resolveAddChar [1, 2, 3]).hasX = true →
      (resolveAddChar [1, 2, 3]).hasY = true) ∧
    (resolveAddChar [1, 2, 3]).rest ≠ [] ∧
    ((resolveGetChar [1]).hasX = true → (resolveGetChar [1]).hasY = true) ∧
    (resolveGetChar [1]).rest ≠ [] ∧
    ((resolvePrint [PV.i 1, PV.s "x"]).hasX = true →
      (resolvePrint [PV.i 1, PV.s "x"]).hasY = true) ∧
    (resolvePrint [PV.i 1, PV.s "x"]).rest ≠ [] :=
  resolved_call_invariants [1, 2, 3] [1] [PV.i 1, PV.s "x"]
    (by decide) (by decide) (by decide) (by decide)

/-- C9: argument resolution is pure and deterministic — resolving the same
list twice yields identical `ResolvedCall` values, and the whole `Print`
operation factors through the resolver: its outcome (which driver call, at
which coordinates, with which rendered text, or the panic) is a function of
the resolved call alone, with no other state involved. -/
theorem print_resolution_pure (args : List PV) :
    resolvePrint args = resolvePrint args ∧
    printModel args = printDispatch (resolvePrint args) :=
  ⟨rfl, print_factors args⟩

/-- C10: for every non-empty argument list the payload index `count` computed
by `AddChar` and `Print` satisfies `count ≤ len(args) - 1`, so the accesses
`args[count]` and `args[count+1:]` are in bounds. -/
theorem payload_index_in_bounds :
    (∀ args : List Int, args ≠ [] → addCharCount args ≤ args.length - 1) ∧
    (∀ args : List PV, args ≠ [] → printCount args ≤ args.length - 1) :=
  ⟨addCharCount_le, printCount_le⟩

/-- C10 witness: the bound holds for `AddChar(7)` and `Print("a")`. -/
theorem payload_index_in_bounds_witness :
    addCharCount [7] ≤ ([7] : List Int).length - 1 ∧
    printCount [PV.s "a"] ≤ ([PV.s "a"] : List PV).length - 1 :=
  ⟨payload_index_in_bounds.1 [7] (by decide),
   payload_index_in_bounds.2 [PV.s "a"] (by decide)⟩

end Goncurses
